import Mathlib

/-!
Shallow embedding of the AI-proxy backend of the language-learning app:
the `AIService` provider adapter (`src/services/aiService.ts`) and the
`generate-text` / `translate-word` HTTP handlers (`src/routes/ai.ts`).

JavaScript conventions modelled explicitly:
* an optional request field is `Option String`; JS truthiness of a string
  (`!x` is true for `undefined` and for `""`) is the `truthy` predicate;
* `res.json(...)` without `res.status(...)` responds with HTTP status 200;
* `String.prototype.includes` is the `hasSub` predicate;
* a thrown JS value is a `VendorError` carrying the optional HTTP `status`
  of the failed call, the `.message` property (empty when absent) and
  whether the value is an `instanceof Error`.
-/

/-- JS truthiness of an optional string field: `undefined` and `""` are falsy. -/
def truthy : Option String → Bool
  | none => false
  | some s => s != ""

/-- Whether the first list is a prefix of the second (by character equality). -/
def listPrefixOf : List Char → List Char → Bool
  | [], _ => true
  | _ :: _, [] => false
  | a :: as, b :: bs => a == b && listPrefixOf as bs

/-- Whether `sub` occurs as a contiguous sublist of `s`. -/
def listContains (sub : List Char) : List Char → Bool
  | [] => sub.isEmpty
  | c :: t => listPrefixOf sub (c :: t) || listContains sub t

/-- Model of `String.prototype.includes`: `hasSub s sub` holds iff `sub`
occurs in `s` (the empty string occurs in every string). -/
def hasSub (s sub : String) : Bool :=
  listContains sub.data s.data

/-- Model of `String.prototype.toLowerCase` (ASCII, computable in the kernel). -/
def toLowerStr (s : String) : String :=
  ⟨s.data.map Char.toLower⟩

/-- Model of `String.prototype.toUpperCase` (ASCII, computable in the kernel). -/
def toUpperStr (s : String) : String :=
  ⟨s.data.map Char.toUpper⟩

/-- Whether a character is trimmed by `String.prototype.trim`. -/
def isJsWhitespace (c : Char) : Bool :=
  c == ' ' || c == '\t' || c == '\n' || c == '\r'

/-- Model of `String.prototype.trim`: strip whitespace from both ends. -/
def jsTrim (s : String) : String :=
  ⟨((s.data.dropWhile isJsWhitespace).reverse.dropWhile isJsWhitespace).reverse⟩

/-- Model of the JS template-literal interpolation of a possibly-undefined
string (stringifies `undefined` to the literal text "undefined"). -/
def tsInterp : Option String → String
  | some s => s
  | none => "undefined"

/-- Model of the JS `x || fallback` idiom on an optional string. -/
def jsOr (x : Option String) (fallback : String) : String :=
  if truthy x then x.getD "" else fallback

/-- A thrown JS value as seen by the catch blocks: the HTTP status attached
by the vendor SDK (if any), the `.message` property (empty string when the
thrown value has none), and whether it is an `instanceof Error`. -/
structure VendorError where
  status : Option Nat
  message : String
  isError : Bool
deriving DecidableEq, Repr

/-- The normalized adapter envelope `AIServiceResponse` of aiService.ts. -/
structure AIServiceResponse where
  success : Bool
  text : Option String
  error : Option String
deriving DecidableEq, Repr

/-- Shape of an OpenAI chat-completion message (`message.content`). -/
structure OpenAIMessage where
  content : Option String
deriving DecidableEq, Repr

/-- Shape of an OpenAI chat-completion choice (`choices[i].message`). -/
structure OpenAIChoice where
  message : Option OpenAIMessage
deriving DecidableEq, Repr

/-- Shape of an OpenAI chat-completion response (`response.choices`). -/
structure OpenAIResponse where
  choices : List OpenAIChoice
deriving DecidableEq, Repr

/-- A Claude content block: either a text block or a block of another type. -/
inductive ClaudeBlock where
  | text (s : String)
  | other
deriving DecidableEq, Repr

/-- Whether a Claude block satisfies the find predicate comparing block.type
with the text tag. -/
def ClaudeBlock.isText : ClaudeBlock → Bool
  | .text _ => true
  | .other => false

/-- Extraction `response.choices[0]?.message?.content` in generateWithOpenAI. -/
def openAIText (r : OpenAIResponse) : Option String :=
  r.choices.head?.bind fun c => c.message.bind fun m => m.content

/-- aiService.ts `generateWithOpenAI`: the vendor call either yields a
response or throws. A 401 status short-circuits to the fixed credential
message; other thrown values are re-raised (`.error`) for the generic
classifier. A falsy extracted text yields the no-text failure. -/
def generateWithOpenAI (outcome : Except VendorError OpenAIResponse) :
    Except VendorError AIServiceResponse :=
  match outcome with
  | .ok response =>
    let text := openAIText response
    if truthy text then .ok ⟨true, text, none⟩
    else .ok ⟨false, none, some "No text generated from OpenAI"⟩
  | .error e =>
    if e.status == some 401 then
      .ok ⟨false, none,
        some "Invalid OpenAI API key. Please check your API key at https://platform.openai.com/api-keys"⟩
    else .error e

/-- aiService.ts `generateWithClaude`: finds the first content block whose
type marks it as text; absence yields the no-text failure. A 401 status
short-circuits to the fixed credential message; other thrown values are
re-raised. Note: the text payload of a found text block is NOT checked for
emptiness. -/
def generateWithClaude (outcome : Except VendorError (List ClaudeBlock)) :
    Except VendorError AIServiceResponse :=
  match outcome with
  | .ok content =>
    match content.find? ClaudeBlock.isText with
    | some (ClaudeBlock.text s) => .ok ⟨true, some s, none⟩
    | _ => .ok ⟨false, none, some "No text generated from Claude"⟩
  | .error e =>
    if e.status == some 401 then
      .ok ⟨false, none,
        some "Invalid Claude API key. Please check your API key at https://console.anthropic.com/"⟩
    else .error e

/-- aiService.ts `generateWithGemini`: the SDK call yields the response text
(a string); a falsy text yields the no-text failure. A 400 status whose
message contains "API key not valid" short-circuits to the fixed credential
message; other thrown values are re-raised. -/
def generateWithGemini (outcome : Except VendorError String) :
    Except VendorError AIServiceResponse :=
  match outcome with
  | .ok text =>
    if text == "" then .ok ⟨false, none, some "No text generated from Gemini"⟩
    else .ok ⟨true, some text, none⟩
  | .error e =>
    if e.status == some 400 && hasSub e.message "API key not valid" then
      .ok ⟨false, none,
        some "Invalid Gemini API key. Please get a valid API key from https://makersuite.google.com/app/apikey"⟩
    else .error e

/-- aiService.ts `generateWithCohere`: fixed unimplemented failure. -/
def generateWithCohere : Except VendorError AIServiceResponse :=
  .ok ⟨false, none, some "Cohere integration not yet implemented"⟩

/-- The error classifier in the catch of `AIService.generateText`: matches
the lower-cased message against category substrings in order; a thrown
value that is not an `instanceof Error` gets the generic message. -/
def classifyError (provider : String) (e : VendorError) : String :=
  if e.isError then
    let errorMessage := toLowerStr e.message
    if hasSub errorMessage "api key not valid" || hasSub errorMessage "invalid api key" ||
        hasSub errorMessage "api_key_invalid" || hasSub errorMessage "unauthorized" then
      "Invalid " ++ toUpperStr provider ++ " API key. Please check your API key and try again."
    else if hasSub errorMessage "rate limit" || hasSub errorMessage "quota" ||
        hasSub errorMessage "too many requests" then
      toUpperStr provider ++ " rate limit exceeded. Please try again in a few minutes."
    else if hasSub errorMessage "network" || hasSub errorMessage "connection" ||
        hasSub errorMessage "timeout" then
      "Network error connecting to " ++ toUpperStr provider ++ ". Please check your internet connection."
    else if hasSub errorMessage "400" || hasSub errorMessage "bad request" then
      "Invalid request to " ++ toUpperStr provider ++ ". Please check your API key configuration."
    else if hasSub errorMessage "500" || hasSub errorMessage "internal server error" then
      toUpperStr provider ++ " service is temporarily unavailable. Please try again later."
    else e.message
  else "Unknown AI service error"

/-- The outcome each vendor interaction would have in this request: the
resolved data of the vendor call, or the thrown value. The adapter consults
only the component matching the dispatched provider. -/
structure VendorWorld where
  openai : Except VendorError OpenAIResponse
  claude : Except VendorError (List ClaudeBlock)
  gemini : Except VendorError String
deriving Repr

namespace AIService

/-- aiService.ts `AIService.generateText`: dispatches on the provider tag,
catches anything re-raised by the per-vendor method and converts it to a
failure envelope via the classifier. An unsupported tag yields a fixed
failure. This function never throws: every path returns an envelope. -/
def generateText (provider : String) (w : VendorWorld) : AIServiceResponse :=
  let dispatched : Except VendorError AIServiceResponse :=
    if provider == "openai" then generateWithOpenAI w.openai
    else if provider == "claude" then generateWithClaude w.claude
    else if provider == "gemini" then generateWithGemini w.gemini
    else if provider == "cohere" then generateWithCohere
    else .ok ⟨false, none, some ("Unsupported AI provider: " ++ provider)⟩
  match dispatched with
  | .ok r => r
  | .error e => ⟨false, none, some (classifyError provider e)⟩

/-- aiService.ts `getSystemPrompt`: one fixed teacher-persona string per
tier; any other key falls back to the `Intermediate` string. -/
def getSystemPrompt (level : String) : String :=
  if level == "Elementary" then
    "You are an English teacher creating simple, engaging content for elementary level students. Use basic vocabulary and simple sentence structures."
  else if level == "Pre-Intermediate" then
    "You are an English teacher creating content for pre-intermediate students. Use moderately complex vocabulary and varied sentence structures."
  else if level == "Upper-Intermediate" then
    "You are an English teacher creating advanced content for upper-intermediate students. Use sophisticated vocabulary and complex grammatical structures."
  else if level == "Advanced" then
    "You are an English teacher creating challenging content for advanced students. Use complex vocabulary, idiomatic expressions, and sophisticated grammatical structures."
  else if level == "Intermediate" then
    "You are an English teacher creating content for intermediate level students. Use a good variety of vocabulary and complex sentence structures."
  else
    "You are an English teacher creating content for intermediate level students. Use a good variety of vocabulary and complex sentence structures."

end AIService

/-! ### Prompt builder (inline in the generate-text handler, ai.ts lines 66-81) -/

/-- The nested word-count ternary of the prompt template (ai.ts line 75):
note the final branch returns "400-500" for `Advanced` and for any other
unlisted value alike. -/
def wordCountRange (level : String) : String :=
  if level == "Elementary" then "150-200"
  else if level == "Pre-Intermediate" then "200-250"
  else if level == "Intermediate" then "250-300"
  else if level == "Upper-Intermediate" then "300-400"
  else "400-500"

/-- The level-based prompt template of ai.ts lines 72-80, written as the
concatenation of its four literal segments with the interpolated level and
word-count range. -/
def templatePrompt (level : String) : String :=
  "Generate a high-quality, engaging reading comprehension text for " ++ level ++
  " level English learners.\n\nRequirements:\n- Text should be approximately " ++
  wordCountRange level ++
  " words.\n- Use appropriate vocabulary and grammar complexity for the specified level.\n- Ensure the text is engaging, educational, coherent, and flows naturally.\n\nLevel: " ++
  level ++ "\nPlease generate a completely new and unique text now:"

/-- Prompt selection of ai.ts lines 67-81: a truthy `customPrompt` is used
verbatim, otherwise the level template is filled in. -/
def buildPrompt (level : String) (customPrompt : Option String) : String :=
  if truthy customPrompt then customPrompt.getD "" else templatePrompt level

/-- The maxTokens ternary passed to `aiService.generateText` by the
generate-text handler (ai.ts line 137). -/
def generateMaxTokens (level : String) (customPrompt : Option String) : Nat :=
  if truthy customPrompt then 200 else if level == "Advanced" then 700 else 500

/-- The output-token budget the generate-text handler attaches to the
outgoing generation call, by provider: the non-gemini branch passes
`generateMaxTokens` to the adapter (ai.ts line 137), while the inline
gemini branch posts a request body whose `generationConfig` (the only
place a `maxOutputTokens` could go) is commented out (ai.ts lines 91-100),
so no budget is sent at all. -/
def generateTextSentMaxTokens (provider level : String)
    (customPrompt : Option String) : Option Nat :=
  if provider == "gemini" then none
  else some (generateMaxTokens level customPrompt)

/-- The literal `maxTokens: 50` the translate-word handler passes to
`aiService.generateText` for every provider (ai.ts line 223). -/
def translateMaxTokens : Nat := 50

/-! ### HTTP route models (ai.ts) -/

/-- The generate-text request body fields read by the handler. -/
structure GenTextReq where
  level : Option String
  apiToken : Option String
  provider : Option String
  model : Option String
  customPrompt : Option String
deriving DecidableEq, Repr

/-- The HTTP response of the generate-text route: status code plus the
JSON envelope fields. -/
structure GenTextHttp where
  status : Nat
  success : Bool
  text : Option String
  error : Option String
deriving DecidableEq, Repr

/-- A part of a Gemini candidate content (`parts[i].text`). -/
structure GeminiPart where
  text : Option String
deriving DecidableEq, Repr

/-- A Gemini candidate content (`content.parts`). -/
structure GeminiContent where
  parts : List GeminiPart
deriving DecidableEq, Repr

/-- A Gemini candidate (`candidates[i].content`). -/
structure GeminiCandidate where
  content : Option GeminiContent
deriving DecidableEq, Repr

/-- Gemini response data (`response.data.candidates`). -/
structure GeminiData where
  candidates : List GeminiCandidate
deriving DecidableEq, Repr

/-- The extraction `response.data.candidates[0]?.content?.parts[0]?.text`
of ai.ts line 109. -/
def geminiExtract (d : GeminiData) : Option String :=
  d.candidates.head?.bind fun c =>
    c.content.bind fun ct => ct.parts.head?.bind fun p => p.text

/-- Outcome of the inline `axios.post` to the Gemini endpoint in the route
(ai.ts line 106): the response data, or a throw whose message the catch
resolves as error.response?.data?.error?.message || error.message. -/
inductive GeminiAxios where
  | ok (data : GeminiData)
  | err (resolvedMessage : String)
deriving DecidableEq, Repr

/-- Outcome of the `aiService.generateText(...)` call as the route sees it:
a returned envelope, or a thrown value (handled by the route's catch). -/
inductive AdapterOutcome where
  | result (r : AIServiceResponse)
  | thrown (e : VendorError)
deriving DecidableEq, Repr

/-- The generate-text route handler (ai.ts lines 53-165). Field validation
uses JS truthiness; provider "gemini" takes the inline axios branch (where
a missing text path raises the fixed no-text error, caught by the branch's
catch and answered with HTTP 500); every other provider goes through the
adapter, whose failure envelope is answered with HTTP 400 and whose thrown
value is answered with HTTP 500. -/
def generateTextRoute (req : GenTextReq) (geminiCall : GeminiAxios)
    (adapterCall : AdapterOutcome) : GenTextHttp :=
  if !(truthy req.level && truthy req.apiToken && truthy req.provider && truthy req.model) then
    ⟨400, false, none, some "Level, API token, provider, and model are required"⟩
  else if req.provider.getD "" == "gemini" then
    match geminiCall with
    | .ok data =>
      let generatedText := geminiExtract data
      if truthy generatedText then
        ⟨200, true, generatedText, none⟩
      else
        ⟨500, false, none,
          some "AI text generation failed: No text found in Gemini API response.. Please check your AI configuration and try again."⟩
    | .err resolvedMessage =>
      ⟨500, false, none,
        some ("AI text generation failed: " ++ resolvedMessage ++
          ". Please check your AI configuration and try again.")⟩
  else
    match adapterCall with
    | .result aiResponse =>
      if aiResponse.success && truthy aiResponse.text then
        ⟨200, true, aiResponse.text, none⟩
      else
        ⟨400, false, none,
          some ("AI text generation failed: " ++ jsOr aiResponse.error "Unknown error" ++ ".")⟩
    | .thrown e =>
      ⟨500, false, none,
        some ("AI service error: " ++
          (if e.message == "" then "Unknown error" else e.message) ++ ".")⟩

/-- The translate-word request body fields read by the handler. -/
structure TranslateReq where
  word : Option String
  targetLanguage : Option String
  languageCode : Option String
  aiToken : Option String
  provider : Option String
  model : Option String
deriving DecidableEq, Repr

/-- The HTTP response of the translate-word route. -/
structure TranslateHttp where
  status : Nat
  success : Bool
  translation : Option String
  error : Option String
deriving DecidableEq, Repr

/-- The translate-word route handler (ai.ts lines 183-255). Missing
word/targetLanguage/languageCode is HTTP 400; missing aiToken or provider
is answered HTTP 200 with the fixed failure message before any adapter is
constructed; otherwise the adapter outcome is shaped: a truthy text is
trimmed and returned as the translation, a failure envelope and a thrown
value are both answered HTTP 200 with success false. -/
def translateWordRoute (req : TranslateReq) (adapterCall : AdapterOutcome) :
    TranslateHttp :=
  if !(truthy req.word && truthy req.targetLanguage && truthy req.languageCode) then
    ⟨400, false, none, some "Word, target language, and language code are required"⟩
  else if !(truthy req.aiToken && truthy req.provider) then
    ⟨200, false, none, some "AI token and provider are required for translation"⟩
  else
    match adapterCall with
    | .result aiResponse =>
      if aiResponse.success && truthy aiResponse.text then
        ⟨200, true, some (jsTrim (aiResponse.text.getD "")), none⟩
      else
        ⟨200, false, none,
          some ("Unable to translate \"" ++ req.word.getD "" ++ "\". " ++
            tsInterp aiResponse.error)⟩
    | .thrown e =>
      ⟨200, false, none,
        some ("Translation error: " ++
          (if e.isError then e.message else "Unknown error"))⟩

/-! ### Helper notions and lemmas -/

/-- Occurrence of `sub` as a contiguous substring of `s`. -/
def containsStr (s sub : String) : Prop :=
  ∃ pre post, s = pre ++ sub ++ post

/-- The level template always contains the word-count range selected for
that level, between the literal segments of the template. -/
theorem templatePrompt_contains_wordCountRange (level : String) :
    containsStr (templatePrompt level) (wordCountRange level) := by
  refine ⟨"Generate a high-quality, engaging reading comprehension text for " ++ level ++
    " level English learners.\n\nRequirements:\n- Text should be approximately ",
    " words.\n- Use appropriate vocabulary and grammar complexity for the specified level.\n- Ensure the text is engaging, educational, coherent, and flows naturally.\n\nLevel: " ++
    level ++ "\nPlease generate a completely new and unique text now:", ?_⟩
  simp [templatePrompt, String.append_assoc]

/-! ### Claims -/

/-- C6: for every recognized level without a custom prompt, the built
prompt contains exactly the word-count range of the table: Elementary
150-200, Pre-Intermediate 200-250, Intermediate 250-300, Upper-Intermediate
300-400, Advanced 400-500. -/
theorem prompt_wordCount_table :
    (wordCountRange "Elementary" = "150-200" ∧
     wordCountRange "Pre-Intermediate" = "200-250" ∧
     wordCountRange "Intermediate" = "250-300" ∧
     wordCountRange "Upper-Intermediate" = "300-400" ∧
     wordCountRange "Advanced" = "400-500") ∧
    (containsStr (buildPrompt "Elementary" none) "150-200" ∧
     containsStr (buildPrompt "Pre-Intermediate" none) "200-250" ∧
     containsStr (buildPrompt "Intermediate" none) "250-300" ∧
     containsStr (buildPrompt "Upper-Intermediate" none) "300-400" ∧
     containsStr (buildPrompt "Advanced" none) "400-500") := by
  refine ⟨⟨by decide, by decide, by decide, by decide, by decide⟩, ?_, ?_, ?_, ?_, ?_⟩
  all_goals exact templatePrompt_contains_wordCountRange _

/-- C7: the teacher-persona mapping assigns one fixed string per each of
the five levels, and every unrecognized level value gets the Intermediate
persona string. -/
theorem getSystemPrompt_mapping :
    (AIService.getSystemPrompt "Elementary" =
      "You are an English teacher creating simple, engaging content for elementary level students. Use basic vocabulary and simple sentence structures." ∧
     AIService.getSystemPrompt "Pre-Intermediate" =
      "You are an English teacher creating content for pre-intermediate students. Use moderately complex vocabulary and varied sentence structures." ∧
     AIService.getSystemPrompt "Intermediate" =
      "You are an English teacher creating content for intermediate level students. Use a good variety of vocabulary and complex sentence structures." ∧
     AIService.getSystemPrompt "Upper-Intermediate" =
      "You are an English teacher creating advanced content for upper-intermediate students. Use sophisticated vocabulary and complex grammatical structures." ∧
     AIService.getSystemPrompt "Advanced" =
      "You are an English teacher creating challenging content for advanced students. Use complex vocabulary, idiomatic expressions, and sophisticated grammatical structures.") ∧
    (∀ level : String, level ≠ "Elementary" → level ≠ "Pre-Intermediate" →
      level ≠ "Intermediate" → level ≠ "Upper-Intermediate" → level ≠ "Advanced" →
      AIService.getSystemPrompt level =
        "You are an English teacher creating content for intermediate level students. Use a good variety of vocabulary and complex sentence structures.") := by
  refine ⟨⟨by decide, by decide, by decide, by decide, by decide⟩, ?_⟩
  intro level h1 h2 h3 h4 h5
  simp [AIService.getSystemPrompt, h1, h2, h3, h4, h5]

/-- Witness for C7 at the unrecognized level "Banana". -/
theorem getSystemPrompt_mapping_witness :
    AIService.getSystemPrompt "Banana" =
      "You are an English teacher creating content for intermediate level students. Use a good variety of vocabulary and complex sentence structures." :=
  getSystemPrompt_mapping.2 "Banana" (by decide) (by decide) (by decide) (by decide) (by decide)

/-- C8: a translate-word request with word, targetLanguage and languageCode
present but aiToken or provider absent is answered HTTP 200 with success
false and the fixed message, for every possible adapter outcome (so the
response is decided without consulting any vendor). -/
theorem translate_missing_credentials (req : TranslateReq)
    (hw : truthy req.word = true) (ht : truthy req.targetLanguage = true)
    (hc : truthy req.languageCode = true)
    (hcred : (truthy req.aiToken && truthy req.provider) = false) :
    ∀ a : AdapterOutcome, translateWordRoute req a =
      ⟨200, false, none, some "AI token and provider are required for translation"⟩ := by
  intro a
  simp [translateWordRoute, hw, ht, hc, hcred]

/-- Witness for C8 at a concrete credential-less request. -/
theorem translate_missing_credentials_witness :
    translateWordRoute ⟨some "hello", some "Spanish", some "es", none, none, none⟩
      (.result ⟨true, some "hola", none⟩) =
      ⟨200, false, none, some "AI token and provider are required for translation"⟩ :=
  translate_missing_credentials _ (by decide) (by decide) (by decide) (by decide) _

/-- C9 counterexample: a supplied but empty customPrompt is NOT returned
verbatim; the level template is applied instead. -/
theorem buildPrompt_empty_custom_counterexample :
    buildPrompt "Elementary" (some "") ≠ "" ∧
    buildPrompt "Elementary" (some "") = templatePrompt "Elementary" :=
  ⟨by decide, rfl⟩

/-- C9 (amended): a supplied non-empty customPrompt is returned verbatim
as the prompt, with no word-count template applied. -/
theorem buildPrompt_custom_verbatim (level s : String) (h : s ≠ "") :
    buildPrompt level (some s) = s := by
  simp [buildPrompt, truthy, h]

/-- Witness for C9 (amended) at a concrete custom prompt. -/
theorem buildPrompt_custom_verbatim_witness :
    buildPrompt "Elementary" (some "Say hi") = "Say hi" :=
  buildPrompt_custom_verbatim "Elementary" "Say hi" (by decide)

/-- C10: once a translate-word request reaches the AI-translation stage,
an adapter failure envelope and a thrown adapter exception are both
answered HTTP 200 with success false and a descriptive error string
(neither HTTP 400 nor HTTP 500). -/
theorem translate_ai_stage_failures (req : TranslateReq)
    (r : AIServiceResponse) (e : VendorError)
    (hw : truthy req.word = true) (ht : truthy req.targetLanguage = true)
    (hc : truthy req.languageCode = true)
    (htok : truthy req.aiToken = true) (hprov : truthy req.provider = true)
    (hfail : r.success = false) :
    translateWordRoute req (.result r) =
      ⟨200, false, none,
        some ("Unable to translate \"" ++ req.word.getD "" ++ "\". " ++ tsInterp r.error)⟩
    ∧ translateWordRoute req (.thrown e) =
      ⟨200, false, none,
        some ("Translation error: " ++ (if e.isError then e.message else "Unknown error"))⟩ := by
  constructor
  · simp [translateWordRoute, hw, ht, hc, htok, hprov, hfail]
  · simp [translateWordRoute, hw, ht, hc, htok, hprov]

/-- Witness for C10 at a concrete request, failure envelope and thrown error. -/
theorem translate_ai_stage_failures_witness :
    translateWordRoute ⟨some "hello", some "Spanish", some "es", some "tok", some "openai", none⟩
      (.result ⟨false, none, some "quota hit"⟩) =
      ⟨200, false, none, some "Unable to translate \"hello\". quota hit"⟩
    ∧ translateWordRoute ⟨some "hello", some "Spanish", some "es", some "tok", some "openai", none⟩
      (.thrown ⟨none, "boom", true⟩) =
      ⟨200, false, none, some "Translation error: boom"⟩ := by
  have h := translate_ai_stage_failures
    ⟨some "hello", some "Spanish", some "es", some "tok", some "openai", none⟩
    ⟨false, none, some "quota hit"⟩ ⟨none, "boom", true⟩
    (by decide) (by decide) (by decide) (by decide) (by decide) rfl
  exact ⟨h.1.trans (by decide), h.2.trans (by decide)⟩

/-- C1 counterexample: for provider "gemini" a vendor-reported failure of
the generation call is answered HTTP 500, not HTTP 400, even though it is
not an unexpected exception of the gateway. -/
theorem gemini_failure_http500_counterexample :
    (generateTextRoute ⟨some "Elementary", some "tok", some "gemini", some "gemini-1.5-flash", none⟩
        (.err "API key not valid") (.result ⟨false, none, some "boom"⟩)).status = 500
    ∧ (generateTextRoute ⟨some "Elementary", some "tok", some "gemini", some "gemini-1.5-flash", none⟩
        (.err "API key not valid") (.result ⟨false, none, some "boom"⟩)).status ≠ 400 := by
  decide

/-- C1 (amended): for every validated generate-text request with a
non-gemini provider, an adapter failure envelope is answered HTTP 400 with
the wrapped error string, and a thrown adapter value is answered HTTP 500;
for provider "gemini" the inline branch answers every vendor-call failure
with HTTP 500 and its own wrapped message. -/
theorem generateText_failure_status (req : GenTextReq) (gc : GeminiAxios)
    (r : AIServiceResponse) (e : VendorError) (ac : AdapterOutcome) (m : String)
    (hl : truthy req.level = true) (ha : truthy req.apiToken = true)
    (hp : truthy req.provider = true) (hm : truthy req.model = true) :
    (req.provider.getD "" ≠ "gemini" → r.success = false →
      generateTextRoute req gc (.result r) =
        ⟨400, false, none,
          some ("AI text generation failed: " ++ jsOr r.error "Unknown error" ++ ".")⟩)
    ∧ (req.provider.getD "" ≠ "gemini" →
      generateTextRoute req gc (.thrown e) =
        ⟨500, false, none,
          some ("AI service error: " ++
            (if e.message == "" then "Unknown error" else e.message) ++ ".")⟩)
    ∧ (req.provider.getD "" = "gemini" →
      generateTextRoute req (.err m) ac =
        ⟨500, false, none,
          some ("AI text generation failed: " ++ m ++
            ". Please check your AI configuration and try again.")⟩) := by
  refine ⟨?_, ?_, ?_⟩
  · intro hng hfail
    simp [generateTextRoute, hl, ha, hp, hm, hng, hfail]
  · intro hng
    simp [generateTextRoute, hl, ha, hp, hm, hng]
  · intro hg
    simp [generateTextRoute, hl, ha, hp, hm, hg]

/-- Witness for C1 (amended) at concrete openai-failure, openai-throw and
gemini-failure requests. -/
theorem generateText_failure_status_witness :
    generateTextRoute ⟨some "Elementary", some "tok", some "openai", some "gpt-3.5-turbo", none⟩
      (.err "unused") (.result ⟨false, none, some "bad key"⟩) =
      ⟨400, false, none, some "AI text generation failed: bad key."⟩
    ∧ generateTextRoute ⟨some "Elementary", some "tok", some "openai", some "gpt-3.5-turbo", none⟩
      (.err "unused") (.thrown ⟨none, "exploded", true⟩) =
      ⟨500, false, none, some "AI service error: exploded."⟩
    ∧ generateTextRoute ⟨some "Elementary", some "tok", some "gemini", some "gemini-1.5-flash", none⟩
      (.err "quota exceeded") (.result ⟨false, none, some "unused"⟩) =
      ⟨500, false, none,
        some "AI text generation failed: quota exceeded. Please check your AI configuration and try again."⟩ := by
  have h1 := generateText_failure_status
    ⟨some "Elementary", some "tok", some "openai", some "gpt-3.5-turbo", none⟩
    (.err "unused") ⟨false, none, some "bad key"⟩ ⟨none, "exploded", true⟩
    (.result ⟨false, none, some "unused"⟩) "quota exceeded"
    (by decide) (by decide) (by decide) (by decide)
  have h2 := generateText_failure_status
    ⟨some "Elementary", some "tok", some "gemini", some "gemini-1.5-flash", none⟩
    (.err "quota exceeded") ⟨false, none, some "bad key"⟩ ⟨none, "exploded", true⟩
    (.result ⟨false, none, some "unused"⟩) "quota exceeded"
    (by decide) (by decide) (by decide) (by decide)
  exact ⟨(h1.1 (by decide) rfl).trans (by decide),
    (h1.2.1 (by decide)).trans (by decide),
    (h2.2.2 (by decide)).trans (by decide)⟩

/-- C2 counterexample: a gemini vendor response whose shape lacks the
expected text path (empty candidate list) is answered by the gateway with
HTTP 500, via the thrown no-text error of the inline branch. -/
theorem gemini_no_text_http500_counterexample :
    (generateTextRoute ⟨some "Elementary", some "tok", some "gemini", some "gemini-1.5-flash", none⟩
        (.ok ⟨[]⟩) (.result ⟨false, none, some "unused"⟩)).status = 500
    ∧ (generateTextRoute ⟨some "Elementary", some "tok", some "gemini", some "gemini-1.5-flash", none⟩
        (.ok ⟨[]⟩) (.result ⟨false, none, some "unused"⟩)).error =
      some "AI text generation failed: No text found in Gemini API response.. Please check your AI configuration and try again." := by
  decide

/-- C2 (amended): inside the AIService adapter, every vendor response
lacking the expected text path yields success false with a
NoTextGenerated-class message and no thrown exception (openai: falsy
first-choice message content; claude: no text block; gemini SDK: empty
text); but the generate-text route's inline gemini branch converts a
response lacking the text path into a thrown error answered HTTP 500. -/
theorem adapters_no_text_failure (r : OpenAIResponse) (blocks : List ClaudeBlock)
    (d : GeminiData) (req : GenTextReq) (ac : AdapterOutcome)
    (ho : truthy (openAIText r) = false)
    (hb : blocks.find? ClaudeBlock.isText = none)
    (hl : truthy req.level = true) (ha : truthy req.apiToken = true)
    (hm : truthy req.model = true) (hprov : req.provider = some "gemini")
    (hg : truthy (geminiExtract d) = false) :
    generateWithOpenAI (.ok r) = .ok ⟨false, none, some "No text generated from OpenAI"⟩
    ∧ generateWithClaude (.ok blocks) = .ok ⟨false, none, some "No text generated from Claude"⟩
    ∧ generateWithGemini (.ok "") = .ok ⟨false, none, some "No text generated from Gemini"⟩
    ∧ generateTextRoute req (.ok d) ac =
        ⟨500, false, none,
          some "AI text generation failed: No text found in Gemini API response.. Please check your AI configuration and try again."⟩ := by
  refine ⟨?_, ?_, rfl, ?_⟩
  · simp [generateWithOpenAI, ho]
  · simp [generateWithClaude, hb]
  · have hp : truthy req.provider = true := by rw [hprov]; decide
    simp [generateTextRoute, hl, ha, hm, hp, hprov, hg]
    decide

/-- Witness for C2 (amended) at concrete shape-lacking vendor responses. -/
theorem adapters_no_text_failure_witness :
    generateWithOpenAI (.ok ⟨[⟨some ⟨some ""⟩⟩]⟩) =
      .ok ⟨false, none, some "No text generated from OpenAI"⟩
    ∧ generateWithClaude (.ok [ClaudeBlock.other]) =
      .ok ⟨false, none, some "No text generated from Claude"⟩
    ∧ generateWithGemini (.ok "") = .ok ⟨false, none, some "No text generated from Gemini"⟩
    ∧ generateTextRoute ⟨some "Elementary", some "tok", some "gemini", some "m", none⟩
        (.ok ⟨[⟨none⟩]⟩) (.result ⟨false, none, some "unused"⟩) =
        ⟨500, false, none,
          some "AI text generation failed: No text found in Gemini API response.. Please check your AI configuration and try again."⟩ :=
  adapters_no_text_failure ⟨[⟨some ⟨some ""⟩⟩]⟩ [ClaudeBlock.other] ⟨[⟨none⟩]⟩
    ⟨some "Elementary", some "tok", some "gemini", some "m", none⟩
    (.result ⟨false, none, some "unused"⟩)
    (by decide) (by decide) (by decide) (by decide) (by decide) rfl (by decide)

/-- C3 counterexample: a generate-text call with provider "gemini" at level
Advanced without a custom prompt sends no token budget at all, not 700. -/
theorem gemini_no_token_budget_counterexample :
    generateTextSentMaxTokens "gemini" "Advanced" none = none
    ∧ generateTextSentMaxTokens "gemini" "Advanced" none ≠ some 700 := by
  decide

/-- C3 (amended): for every non-gemini provider the budget passed to the
adapter is 200 with a non-empty custom prompt, 700 for Advanced without
one, and 500 for every other level without one; the inline gemini branch
of generate-text sends no budget; translate-word passes exactly 50 to the
adapter for every provider. -/
theorem maxTokens_policy (provider level : String) (cp : Option String)
    (hng : provider ≠ "gemini") :
    (truthy cp = true → generateTextSentMaxTokens provider level cp = some 200)
    ∧ (truthy cp = false → level = "Advanced" →
        generateTextSentMaxTokens provider level cp = some 700)
    ∧ (truthy cp = false → level ≠ "Advanced" →
        generateTextSentMaxTokens provider level cp = some 500)
    ∧ generateTextSentMaxTokens "gemini" level cp = none
    ∧ translateMaxTokens = 50 := by
  refine ⟨?_, ?_, ?_, by simp [generateTextSentMaxTokens], rfl⟩
  · intro hcp
    simp [generateTextSentMaxTokens, generateMaxTokens, hng, hcp]
  · intro hcp hadv
    simp [generateTextSentMaxTokens, generateMaxTokens, hng, hcp, hadv]
  · intro hcp hadv
    simp [generateTextSentMaxTokens, generateMaxTokens, hng, hcp, hadv]

/-- Witness for C3 (amended) at concrete providers, levels and prompts. -/
theorem maxTokens_policy_witness :
    generateTextSentMaxTokens "openai" "Elementary" (some "Say hi") = some 200
    ∧ generateTextSentMaxTokens "openai" "Advanced" none = some 700
    ∧ generateTextSentMaxTokens "claude" "Elementary" none = some 500
    ∧ generateTextSentMaxTokens "gemini" "Elementary" none = none
    ∧ translateMaxTokens = 50 := by
  have h1 := maxTokens_policy "openai" "Elementary" (some "Say hi") (by decide)
  have h2 := maxTokens_policy "openai" "Advanced" none (by decide)
  have h3 := maxTokens_policy "claude" "Elementary" none (by decide)
  exact ⟨h1.1 (by decide), h2.2.1 (by decide) rfl, h3.2.2.1 (by decide) (by decide),
    h3.2.2.2.1, h3.2.2.2.2⟩

/-- A truthy optional string is some non-empty string. -/
theorem truthy_iff {x : Option String} : truthy x = true ↔ ∃ t, x = some t ∧ t ≠ "" := by
  cases x <;> simp [truthy]

/-- C4 counterexample: an error whose message contains "rate limit" but
also "unauthorized" is classified as a credential error by the earlier
branch of the classifier, so the returned user message does not contain
"rate limit exceeded". -/
theorem rateLimit_shadowed_counterexample :
    AIService.generateText "openai"
      ⟨.error ⟨none, "Unauthorized: rate limit", true⟩, .ok [], .ok ""⟩ =
      ⟨false, none, some "Invalid OPENAI API key. Please check your API key and try again."⟩
    ∧ hasSub (toLowerStr "Unauthorized: rate limit") "rate limit" = true
    ∧ hasSub "Invalid OPENAI API key. Please check your API key and try again."
        "rate limit exceeded" = false := by
  decide

/-- C4 (amended): for every provider and every caught Error whose message
contains "rate limit" case-insensitively and matches none of the earlier
credential-category substrings ("api key not valid", "invalid api key",
"api_key_invalid", "unauthorized"), the classifier returns the fixed
rate-limit template, which contains "rate limit exceeded" and the
upper-cased provider name. -/
theorem classifyError_rateLimit (provider : String) (e : VendorError)
    (hE : e.isError = true)
    (hrl : hasSub (toLowerStr e.message) "rate limit" = true)
    (h1 : hasSub (toLowerStr e.message) "api key not valid" = false)
    (h2 : hasSub (toLowerStr e.message) "invalid api key" = false)
    (h3 : hasSub (toLowerStr e.message) "api_key_invalid" = false)
    (h4 : hasSub (toLowerStr e.message) "unauthorized" = false) :
    classifyError provider e =
      toUpperStr provider ++ " rate limit exceeded. Please try again in a few minutes."
    ∧ containsStr (classifyError provider e) "rate limit exceeded"
    ∧ containsStr (classifyError provider e) (toUpperStr provider) := by
  have heq : classifyError provider e =
      toUpperStr provider ++ " rate limit exceeded. Please try again in a few minutes." := by
    simp [classifyError, hE, hrl, h1, h2, h3, h4]
  refine ⟨heq, ?_, ?_⟩
  · rw [heq]
    refine ⟨toUpperStr provider ++ " ", ". Please try again in a few minutes.", ?_⟩
    rw [String.append_assoc, String.append_assoc]
    exact congrArg (fun s => toUpperStr provider ++ s) (by decide)
  · rw [heq]
    exact ⟨"", " rate limit exceeded. Please try again in a few minutes.", rfl⟩

/-- Witness for C4 (amended) at a concrete rate-limit error message. -/
theorem classifyError_rateLimit_witness :
    classifyError "openai" ⟨none, "Rate Limit reached", true⟩ =
      toUpperStr "openai" ++ " rate limit exceeded. Please try again in a few minutes."
    ∧ containsStr (classifyError "openai" ⟨none, "Rate Limit reached", true⟩)
        "rate limit exceeded"
    ∧ containsStr (classifyError "openai" ⟨none, "Rate Limit reached", true⟩)
        (toUpperStr "openai") :=
  classifyError_rateLimit "openai" ⟨none, "Rate Limit reached", true⟩ rfl
    (by decide) (by decide) (by decide) (by decide) (by decide)

/-- C5 counterexample: two envelopes with success true but empty payload:
the translate-word route trims a whitespace-only adapter text into an
empty translation, and the Claude adapter accepts an empty text block. -/
theorem success_empty_payload_counterexample :
    translateWordRoute ⟨some "hello", some "Spanish", some "es", some "tok", some "openai", none⟩
      (.result ⟨true, some " ", none⟩) = ⟨200, true, some "", none⟩
    ∧ generateWithClaude (.ok [ClaudeBlock.text ""]) = .ok ⟨true, some "", none⟩ :=
  ⟨by decide, rfl⟩

/-- Presence invariant of an adapter envelope: a success carries a text
and a failure carries an error message. -/
def envelopeOk (r : AIServiceResponse) : Prop :=
  (r.success = true → r.text ≠ none) ∧ (r.success = false → r.error ≠ none)

/-- Every envelope returned (not re-thrown) by the OpenAI adapter method
satisfies the presence invariant. -/
theorem generateWithOpenAI_envelopeOk (o : Except VendorError OpenAIResponse)
    (r : AIServiceResponse) (h : generateWithOpenAI o = .ok r) : envelopeOk r := by
  rcases o with e | d
  · dsimp [generateWithOpenAI] at h
    split at h
    · injection h with h
      subst h
      simp [envelopeOk]
    · simp at h
  · dsimp [generateWithOpenAI] at h
    split at h
    · rename_i ht
      rcases truthy_iff.mp ht with ⟨t, hts, hne⟩
      injection h with h
      subst h
      simp [envelopeOk, hts]
    · injection h with h
      subst h
      simp [envelopeOk]

/-- Every envelope returned (not re-thrown) by the Claude adapter method
satisfies the presence invariant. -/
theorem generateWithClaude_envelopeOk (o : Except VendorError (List ClaudeBlock))
    (r : AIServiceResponse) (h : generateWithClaude o = .ok r) : envelopeOk r := by
  rcases o with e | d
  · dsimp [generateWithClaude] at h
    split at h
    · injection h with h
      subst h
      simp [envelopeOk]
    · simp at h
  · dsimp [generateWithClaude] at h
    split at h <;> (injection h with h; subst h; simp [envelopeOk])

/-- Every envelope returned (not re-thrown) by the Gemini adapter method
satisfies the presence invariant. -/
theorem generateWithGemini_envelopeOk (o : Except VendorError String)
    (r : AIServiceResponse) (h : generateWithGemini o = .ok r) : envelopeOk r := by
  rcases o with e | d
  · dsimp [generateWithGemini] at h
    split at h
    · injection h with h
      subst h
      simp [envelopeOk]
    · simp at h
  · dsimp [generateWithGemini] at h
    split at h <;> (injection h with h; subst h; simp [envelopeOk])

/-- Every envelope produced by the adapter dispatch satisfies the presence
invariant: each branch either returns a compliant envelope or re-throws
into the classifier, which produces a failure with an error message. -/
theorem generateText_envelopeOk (provider : String) (w : VendorWorld) :
    envelopeOk (AIService.generateText provider w) := by
  unfold AIService.generateText
  dsimp only
  split
  · rename_i r heq
    split at heq
    · exact generateWithOpenAI_envelopeOk _ _ heq
    · split at heq
      · exact generateWithClaude_envelopeOk _ _ heq
      · split at heq
        · exact generateWithGemini_envelopeOk _ _ heq
        · split at heq
          · dsimp [generateWithCohere] at heq
            injection heq with heq
            subst heq
            simp [envelopeOk]
          · injection heq with heq
            subst heq
            simp [envelopeOk]
  · simp [envelopeOk]

/-- Every generate-text HTTP response satisfies: a success carries a
non-empty text and a failure carries an error message. -/
theorem generateTextRoute_envelope (req : GenTextReq) (gc : GeminiAxios)
    (ac : AdapterOutcome) :
    ((generateTextRoute req gc ac).success = true →
      ∃ t, (generateTextRoute req gc ac).text = some t ∧ t ≠ "")
    ∧ ((generateTextRoute req gc ac).success = false →
      (generateTextRoute req gc ac).error ≠ none) := by
  unfold generateTextRoute
  split
  · simp
  · split
    · cases gc with
      | ok data =>
        dsimp only
        split
        · rename_i ht
          rcases truthy_iff.mp ht with ⟨t, hts, hne⟩
          simp [hts, hne]
        · simp
      | err m => simp
    · cases ac with
      | result r =>
        dsimp only
        split
        · rename_i ht
          rw [Bool.and_eq_true] at ht
          rcases truthy_iff.mp ht.2 with ⟨t, hts, hne⟩
          simp [hts, hne]
        · simp
      | thrown e => simp

/-- Every translate-word HTTP response satisfies: a success carries a
translation and a failure carries an error message. -/
theorem translateWordRoute_envelope (req : TranslateReq) (ac : AdapterOutcome) :
    ((translateWordRoute req ac).success = true →
      (translateWordRoute req ac).translation ≠ none)
    ∧ ((translateWordRoute req ac).success = false →
      (translateWordRoute req ac).error ≠ none) := by
  unfold translateWordRoute
  split
  · simp
  · split
    · simp
    · cases ac with
      | result r =>
        dsimp only
        split
        · simp
        · simp
      | thrown e => simp

/-- C5 (amended): every envelope produced by the system has a present text
(or translation) field on success and a present error field on failure;
moreover the generate-text HTTP response carries a non-empty text on
success. (Non-emptiness does NOT hold for the Claude adapter envelope,
which accepts an empty text block, nor for the translate-word translation,
which may trim a whitespace-only text to empty — see the counterexample.) -/
theorem envelope_invariant :
    (∀ (provider : String) (w : VendorWorld),
      ((AIService.generateText provider w).success = true →
        (AIService.generateText provider w).text ≠ none)
      ∧ ((AIService.generateText provider w).success = false →
        (AIService.generateText provider w).error ≠ none))
    ∧ (∀ (req : GenTextReq) (gc : GeminiAxios) (ac : AdapterOutcome),
      ((generateTextRoute req gc ac).success = true →
        ∃ t, (generateTextRoute req gc ac).text = some t ∧ t ≠ "")
      ∧ ((generateTextRoute req gc ac).success = false →
        (generateTextRoute req gc ac).error ≠ none))
    ∧ (∀ (req : TranslateReq) (ac : AdapterOutcome),
      ((translateWordRoute req ac).success = true →
        (translateWordRoute req ac).translation ≠ none)
      ∧ ((translateWordRoute req ac).success = false →
        (translateWordRoute req ac).error ≠ none)) :=
  ⟨fun provider w => generateText_envelopeOk provider w,
   fun req gc ac => generateTextRoute_envelope req gc ac,
   fun req ac => translateWordRoute_envelope req ac⟩

/-- Witness for C5 (amended) at concrete envelopes of all three kinds. -/
theorem envelope_invariant_witness :
    (AIService.generateText "cohere" ⟨.ok ⟨[]⟩, .ok [], .ok ""⟩).error ≠ none
    ∧ (∃ t, (generateTextRoute ⟨some "Elementary", some "k", some "openai", some "m", none⟩
        (.err "x") (.result ⟨true, some "The cat sat.", none⟩)).text = some t ∧ t ≠ "")
    ∧ (translateWordRoute ⟨some "hello", some "Spanish", some "es", some "k", some "openai", none⟩
        (.result ⟨true, some "hola", none⟩)).translation ≠ none :=
  ⟨(envelope_invariant.1 "cohere" ⟨.ok ⟨[]⟩, .ok [], .ok ""⟩).2 (by decide),
   (envelope_invariant.2.1 ⟨some "Elementary", some "k", some "openai", some "m", none⟩
     (.err "x") (.result ⟨true, some "The cat sat.", none⟩)).1 (by decide),
   (envelope_invariant.2.2 ⟨some "hello", some "Spanish", some "es", some "k", some "openai", none⟩
     (.result ⟨true, some "hola", none⟩)).1 (by decide)⟩
